import Mathlib

/-!
Verification of the Field Resolution and Merge Engine of
src/scripts/build_countries_snapshot.py.

The script queries several network sources (Wikidata SPARQL, OWID CSV tables,
GDELT, Wikipedia, Google Trends) and assembles one structured record per
country.  Network transport, retries and response parsing into primitive
values are external collaborators; here they appear as the already-parsed
inputs of each resolver (query binding lists, table contents, article lists,
outcome flags).  Everything downstream of those inputs - the resolvers, the
status classification, the record assembly, the confidence scoring and the
news deduplication - is embedded faithfully below.

Python floats are modelled as rationals; Python `round` (half-even) is
modelled by an explicit half-even rounding on rationals.  Python string
operations used by the script (`lower`, `strip`, slicing, substring tests)
are modelled on the character lists of Lean strings; `str.lower` is modelled
for ASCII, which covers every string the script compares.
-/

/-- Python truthiness for an optional string: None and the empty string are falsy. -/
def pyTruthy : Option String → Bool
  | none => false
  | some s => !(s == "")

/-- Python `a or b or ... or ""` over optional strings: the first truthy value, else `""`. -/
def pyOrStr : List (Option String) → String
  | [] => ""
  | x :: rest => if pyTruthy x then x.getD "" else pyOrStr rest

/-- Python `str.lower` restricted to ASCII letters (all strings the script lowers are ASCII). -/
def asciiLower (c : Char) : Char :=
  if 65 ≤ c.toNat ∧ c.toNat ≤ 90 then Char.ofNat (c.toNat + 32) else c

/-- Lower-case a string (Python `str.lower`, ASCII). -/
def pyLower (s : String) : String := ⟨s.data.map asciiLower⟩

/-- ASCII whitespace, for Python `str.strip`. -/
def isPySpace (c : Char) : Bool :=
  c == ' ' || c == '\t' || c == '\n' || c == '\r' || c == '\x0b' || c == '\x0c'

/-- Python `str.strip`: drop leading and trailing whitespace. -/
def pyStrip (s : String) : String :=
  ⟨((s.data.dropWhile isPySpace).reverse.dropWhile isPySpace).reverse⟩

/-- Python slicing `s[:n]`. -/
def pyTake (s : String) (n : Nat) : String := ⟨s.data.take n⟩

/-- Python `sub in s` (substring containment). -/
def containsSub (s sub : String) : Bool :=
  s.data.tails.any fun t => sub.data.isPrefixOf t

/-- Python `s.startswith(sub)`. -/
def pyStartsWith (s sub : String) : Bool := sub.data.isPrefixOf s.data

/-- Half-even rounding of a rational to an integer (Python `round(x)`). -/
def halfEvenRound (x : ℚ) : ℤ :=
  let f := Int.fdiv x.num x.den
  let frac := x - (f : ℚ)
  if frac < 1/2 then f
  else if (1:ℚ)/2 < frac then f + 1
  else if f % 2 = 0 then f else f + 1

/-- Python `round(x, d)`. -/
def pyRound (x : ℚ) (d : ℕ) : ℚ := (halfEvenRound (x * 10 ^ d) : ℚ) / 10 ^ d

-- ---------------------------- CONFIG constants ----------------------------

def WIKIDATA_ENTITY_BASE : String := "https://www.wikidata.org/wiki/"

def WD_ENTITY_PREFIX : String := "http://www.wikidata.org/entity/"

def TOP_NEWS_N : Nat := 3

def ENGLISH_NEWS_ONLY : Bool := true

/-- The QUERY_ALIASES table of the script. -/
def QUERY_ALIASES : List (String × List String) :=
  [("UAE", ["United Arab Emirates", "UAE"]),
   ("United Kingdom", ["United Kingdom", "UK", "Britain"]),
   ("Palestine", ["Palestine", "Palestinian Territories"]),
   ("Taiwan", ["Taiwan", "Republic of China"]),
   ("North Korea", ["North Korea", "DPRK"]),
   ("South Korea", ["South Korea", "Republic of Korea"])]

/-- Rewrite a Wikidata entity URI to its page URL (the `.replace` calls of the script). -/
def wdUriToPage (uri : String) : String :=
  uri.replace WD_ENTITY_PREFIX WIKIDATA_ENTITY_BASE

-- ---------------------------- LANGUAGE / ENGLISH FILTER ----------------------------

/-- Does the string contain a character with code point in the closed range lo..hi
(the character-class regex searches of the script)? -/
def hasCharInRange (s : String) (lo hi : Nat) : Bool :=
  s.data.any fun c => decide (lo ≤ c.toNat ∧ c.toNat ≤ hi)

/-- Does the string contain an ASCII Latin letter (regex `[A-Za-z]`)? -/
def hasLatinLetter (s : String) : Bool :=
  s.data.any fun c => decide ((65 ≤ c.toNat ∧ c.toNat ≤ 90) ∨ (97 ≤ c.toNat ∧ c.toNat ≤ 122))

/-- language_guess of the script: first matching script class wins. -/
def language_guess (text : String) : String :=
  if text == "" then "unknown"
  else
    let t := pyStrip text
    if hasCharInRange t 0x410 0x44F then "ru"
    else if hasCharInRange t 0x600 0x6FF then "ar"
    else if hasCharInRange t 0x4e00 0x9fff then "zh"
    else if hasCharInRange t 0x3040 0x30ff then "ja"
    else if hasCharInRange t 0xac00 0xd7af then "ko"
    else if hasLatinLetter t then "en"
    else "unknown"

/-- needs_translation_to_english of the script. -/
def needs_translation_to_english (text : String) : Bool :=
  !(language_guess text == "en" || language_guess text == "unknown")

/-- is_english_script of the script. -/
def is_english_script (text : String) : Bool :=
  if text == "" then false
  else if hasCharInRange text 0x410 0x44F then false
  else if hasCharInRange text 0x600 0x6FF then false
  else if hasCharInRange text 0x4e00 0x9fff then false
  else if hasCharInRange text 0x3040 0x30ff then false
  else if hasCharInRange text 0xac00 0xd7af then false
  else hasLatinLetter text

-- ---------------------------- FIELD SHAPES ----------------------------

/-- The dict produced by field_value for simple fields: status, value, optional reason,
sources.  field_value omits the reason key when reason is falsy; reason = none models
an absent key. -/
structure SimpleField where
  status : String
  value : String
  reason : Option String
  sources : List String
deriving Repr, DecidableEq

-- ---------------------------- WIKIDATA: POLITICAL SYSTEM ----------------------------

/-- One SPARQL result binding of get_political_system_single (values already extracted
by _wd_val: a missing key is none). -/
structure PolBinding where
  polsys : Option String
  polsysLabel : Option String
deriving Repr, DecidableEq

/-- get_political_system_single of the script, from the query's binding list. -/
def get_political_system_single (qid : String) (bindings : List PolBinding) : SimpleField :=
  match bindings with
  | [] =>
    { status := "unknown", value := "",
      reason := some "no_basic_form_of_government_in_wikidata",
      sources := [WIKIDATA_ENTITY_BASE ++ qid] }
  | b :: _ =>
    let polsysLabel := b.polsysLabel.getD ""
    let sources := [WIKIDATA_ENTITY_BASE ++ qid] ++
      (if pyTruthy b.polsys && pyStartsWith (b.polsys.getD "") "http"
       then [wdUriToPage (b.polsys.getD "")] else [])
    { status := "ok", value := polsysLabel, reason := none, sources := sources }

-- ---------------------------- WIKIDATA: GOVERNMENT SNAPSHOT ----------------------------

/-- One leader entry of get_government_snapshot. -/
structure Leader where
  name : String
  title : String
  party : String
  sources : List String
deriving Repr, DecidableEq

/-- The dict returned by get_government_snapshot. -/
structure GovSnapshot where
  leaders : List Leader
  leadersSamePerson : Bool
  leaderNotes : String
  executiveControllerParty : SimpleField
  legislatureBodies : List String
deriving Repr, DecidableEq

/-- A leader-source list element built from an optional entity URI
(empty when the URI is falsy; the list comprehension then filters it out). -/
def uriSource (u : Option String) : String :=
  if pyTruthy u then wdUriToPage (u.getD "") else ""

/-- The executive controlling party decision of get_government_snapshot
(Head of Government party, falling back to Head of State party). -/
def execControllerParty (qid : String) (hogParty hosParty : Option String) : SimpleField :=
  if pyTruthy hogParty then
    { status := "ok", value := hogParty.getD "", reason := none,
      sources := [WIKIDATA_ENTITY_BASE ++ qid] }
  else if pyTruthy hosParty then
    { status := "computed", value := hosParty.getD "",
      reason := some "head_of_government_party_missing_used_head_of_state_party",
      sources := [WIKIDATA_ENTITY_BASE ++ qid] }
  else
    { status := "unknown", value := "",
      reason := some "no_party_membership_found_for_leaders",
      sources := [WIKIDATA_ENTITY_BASE ++ qid] }

/-- get_government_snapshot of the script, from the values extracted from the
query bindings (first truthy label per slot, as the binding loop computes) and
the list of legislature labels found across the bindings. -/
def get_government_snapshot (qid : String)
    (hosName hosParty hosUri hosPartyUri : Option String)
    (hogName hogParty hogUri hogPartyUri : Option String)
    (legLabels : List String) : GovSnapshot :=
  let samePerson := pyTruthy hosName && pyTruthy hogName && (hosName.getD "" == hogName.getD "")
  let leaders :=
    (if pyTruthy hosName then
      [{ name := hosName.getD "", title := "Head of State", party := hosParty.getD "",
         sources := ([WIKIDATA_ENTITY_BASE ++ qid, uriSource hosUri, uriSource hosPartyUri].filter
           (fun x => x != "")) : Leader }]
     else []) ++
    (if pyTruthy hogName then
      [{ name := hogName.getD "", title := "Head of Government", party := hogParty.getD "",
         sources := ([WIKIDATA_ENTITY_BASE ++ qid, uriSource hogUri, uriSource hogPartyUri].filter
           (fun x => x != "")) : Leader }]
     else [])
  { leaders := leaders
    leadersSamePerson := samePerson
    leaderNotes :=
      if samePerson then "Head of State and Head of Government are the same person." else ""
    executiveControllerParty := execControllerParty qid hogParty hosParty
    legislatureBodies := List.insertionSort (fun a b : String => a ≤ b) legLabels.dedup }

-- ---------------------------- WIKIDATA: ELECTIONS ----------------------------

/-- The non-competitive-system keyword list of infer_no_national_elections_from_system. -/
def hardNoSystems : List String :=
  ["absolute monarchy", "military dictatorship", "junta", "one-party state",
   "one party state", "totalitarian"]

/-- infer_no_national_elections_from_system of the script:
some false means the system strongly suggests no national elections, none means unsure. -/
def infer_no_national_elections_from_system (label : String) : Option Bool :=
  let s := pyLower label
  if hardNoSystems.any (fun t => containsSub s t) then some false else none

/-- The three Python values taken by holdsNationalGeneralElections
(True, False, or the string "unknown"). -/
inductive HoldsNGE
  | t
  | f
  | unknown
deriving Repr, DecidableEq

/-- One upcoming-election query binding (values already extracted by _wd_val). -/
structure ElecBinding where
  e : Option String
  eLabel : Option String
  date : Option String
  typeLabel : Option String
  datePropLabel : Option String
deriving Repr, DecidableEq

/-- The dict produced by get_next_national_election.  Its field_value calls put the
payload under date/name/type (so there is no value key); the ok branch omits the
holdsNationalGeneralElections and internalElections keys (modelled as none). -/
structure ElectionField where
  status : String
  reason : Option String
  sources : List String
  date : String
  name : String
  typ : String
  dateField : String
  notes : String
  holdsNationalGeneralElections : Option HoldsNGE
  internalElections : Option SimpleField
deriving Repr, DecidableEq

/-- The nested internalElections field_value of get_next_national_election. -/
def internalElectionsUnknown (sources : List String) : SimpleField :=
  { status := "unknown", value := "",
    reason := some "internal_elections_not_consistently_modeled_in_wikidata",
    sources := sources }

/-- get_next_national_election of the script: inputs are the upcoming-election query
bindings, the result of the past-election existence query, and the political-system
label passed by build_country. -/
def get_next_national_election (qid : String) (bindings : List ElecBinding)
    (hasPast : Bool) (politicalSystemLabel : String) : ElectionField :=
  let baseSources := [WIKIDATA_ENTITY_BASE ++ qid]
  match bindings with
  | b :: _ =>
    let eUri := b.e.getD ""
    let sources := baseSources ++ (if eUri != "" then [wdUriToPage eUri] else [])
    { status := "ok", reason := none, sources := sources,
      date := b.date.getD "", name := b.eLabel.getD "", typ := b.typeLabel.getD "",
      dateField := b.datePropLabel.getD "",
      notes := "Best-effort from Wikidata upcoming election items for this country (jurisdiction P1001).",
      holdsNationalGeneralElections := none,
      internalElections := none }
  | [] =>
    let inferred := infer_no_national_elections_from_system politicalSystemLabel
    if !hasPast && inferred == some false then
      { status := "not_applicable",
        reason := some "political_system_suggests_no_national_general_elections",
        sources := baseSources, date := "", name := "", typ := "", dateField := "",
        notes := "No upcoming or past national election items found and political system suggests non-electoral governance.",
        holdsNationalGeneralElections := some .f,
        internalElections := some (internalElectionsUnknown baseSources) }
    else
      { status := "unknown",
        reason := some "no_upcoming_national_election_item_found_in_wikidata",
        sources := baseSources, date := "", name := "", typ := "", dateField := "",
        notes := "Some countries do not model future elections consistently in Wikidata. Consider adding a country-specific computed fallback.",
        holdsNationalGeneralElections := some (if hasPast then .t else .unknown),
        internalElections := some (internalElectionsUnknown baseSources) }

/-- One binding of the last-legislative-election query (values extracted by _wd_val). -/
structure WinnerBinding where
  e : Option String
  eLabel : Option String
  date : Option String
  winnerLabel : Option String
deriving Repr, DecidableEq

/-- The dict produced by get_last_legislative_election_winner. -/
structure LegControlField where
  status : String
  value : String
  reason : Option String
  sources : List String
  electionName : String
  electionDate : String
  notes : String
deriving Repr, DecidableEq

/-- get_last_legislative_election_winner of the script. -/
def get_last_legislative_election_winner (qid : String)
    (bindings : List WinnerBinding) : LegControlField :=
  let baseSources := [WIKIDATA_ENTITY_BASE ++ qid]
  match bindings with
  | [] =>
    { status := "unknown", value := "",
      reason := some "no_prior_election_item_found_in_wikidata",
      sources := baseSources, electionName := "", electionDate := "",
      notes := "No prior election item found (Wikidata gap)." }
  | b :: _ =>
    let winner := b.winnerLabel.getD ""
    let eUri := b.e.getD ""
    let sources := baseSources ++ (if eUri != "" then [wdUriToPage eUri] else [])
    if winner != "" then
      { status := "ok", value := winner, reason := none, sources := sources,
        electionName := b.eLabel.getD "", electionDate := b.date.getD "",
        notes := "Legislature control approximated from last national election winner (Wikidata P1346)." }
    else
      { status := "unknown", value := "",
        reason := some "election_winner_missing_in_wikidata",
        sources := sources, electionName := b.eLabel.getD "", electionDate := b.date.getD "",
        notes := "Found last election item but winner (P1346) is missing." }

-- ---------------------------- FREEDOM HOUSE (OWID CSV) ----------------------------

/-- A parsed OWID table: entity name to its year/value rows (the dict built by
_parse_owid_csv; keys are distinct). -/
abbrev FHTable := List (String × List (Int × ℚ))

/-- Python `table.get(ent, dict())`. -/
def lookupTable (t : FHTable) (ent : String) : List (Int × ℚ) :=
  (t.lookup ent).getD []

/-- Indexing `years[y]`; at every use site y is a key of the table. -/
def lookupYear (ys : List (Int × ℚ)) (y : Int) : ℚ :=
  (ys.lookup y).getD 0

/-- Python `sorted(set(pr_years.keys()) and set(cl_years.keys()))`: the distinct
common years in ascending order. -/
def commonYearsSorted (pr cl : List (Int × ℚ)) : List Int :=
  List.insertionSort (fun a b : Int => a ≤ b)
    (((pr.map Prod.fst).filter (fun y => (cl.map Prod.fst).contains y)).dedup)

/-- The candidate entity names freedom_house_rating tries, in order
(aliases first when the country has aliases, then the country name). -/
def fhCandidates (name : String) : List String :=
  match QUERY_ALIASES.lookup name with
  | some aliases => aliases ++ [name]
  | none => [name]

/-- The values selected by the candidate loop of freedom_house_rating. -/
structure FHPick where
  entity : String
  year : Int
  pr : ℚ
  cl : ℚ
deriving Repr, DecidableEq

/-- The candidate loop of freedom_house_rating: the first entity present in both
tables with a common year wins, taking the most recent common year. -/
def fhPickLoop (prT clT : FHTable) : List String → Option FHPick
  | [] => none
  | ent :: rest =>
    let prYears := lookupTable prT ent
    let clYears := lookupTable clT ent
    if prYears = [] ∨ clYears = [] then fhPickLoop prT clT rest
    else
      match (commonYearsSorted prYears clYears).getLast? with
      | none => fhPickLoop prT clT rest
      | some y => some ⟨ent, y, lookupYear prYears y, lookupYear clYears y⟩

/-- The dict produced by freedom_house_rating.  The not-found branch has no
components/sourceEntityName keys and empty score/year (modelled as none). -/
structure FreedomField where
  score : Option ℚ
  status : String
  year : Option Int
  components : Option (ℚ × ℚ)
  sourceEntityName : Option String
  notes : String
deriving Repr, DecidableEq

/-- freedom_house_rating of the script, over the parsed OWID tables. -/
def freedom_house_rating (name : String) (prT clT : FHTable) : FreedomField :=
  match fhPickLoop prT clT (fhCandidates name) with
  | none =>
    { score := none, status := "unknown", year := none, components := none,
      sourceEntityName := none,
      notes := "Freedom House score not found in OWID tables." }
  | some p =>
    let total := p.pr + p.cl
    let status :=
      if 70 ≤ total then "Free" else if 35 ≤ total then "Partly Free" else "Not Free"
    { score := some (pyRound total 1), status := status, year := some p.year,
      components := some (pyRound p.pr 1, pyRound p.cl 1),
      sourceEntityName := some p.entity,
      notes := "Computed as PR(0–40)+CL(0–60) using OWID grapher (Freedom House)." }

-- ---------------------------- NEWS (GDELT) ----------------------------

/-- One raw article of the GDELT response (fields read with .get: absent is none). -/
structure RawArticle where
  title : Option String
  url : Option String
  seendate : Option String
  date : Option String
  sourceCommonName : Option String
  source : Option String
  sourceCountry : Option String
deriving Repr, DecidableEq

/-- One output story dict of gdelt_recent_articles. -/
structure Story where
  title : String
  url : String
  source : String
  publishedAt : String
  languageGuess : String
  needsTranslation : Bool
deriving Repr, DecidableEq

/-- The dedup key of gdelt_recent_articles: (title.lower(), url.lower()). -/
def storyKey (s : Story) : String × String := (pyLower s.title, pyLower s.url)

/-- The per-article processing of the gdelt_recent_articles loop, before the
seen-set test: none when the article is skipped for an empty title/url or a
non-English title. -/
def articleStory (a : RawArticle) : Option Story :=
  let title := pyStrip (a.title.getD "")
  let url := pyStrip (a.url.getD "")
  let dt := pyStrip (pyOrStr [a.seendate, a.date])
  let src := pyStrip (pyOrStr [a.sourceCommonName, a.source, a.sourceCountry])
  if title == "" || url == "" then none
  else if ENGLISH_NEWS_ONLY && !is_english_script title then none
  else some
    { title := title, url := url, source := pyTake src 80, publishedAt := dt,
      languageGuess := language_guess title,
      needsTranslation := needs_translation_to_english title }

/-- The accumulation loop of gdelt_recent_articles with its seen set
(set membership modelled on the list of inserted keys). -/
def gdeltLoop : List RawArticle → List (String × String) → List Story
  | [], _ => []
  | a :: rest, seen =>
    match articleStory a with
    | none => gdeltLoop rest seen
    | some s =>
      if storyKey s ∈ seen then gdeltLoop rest seen
      else s :: gdeltLoop rest (storyKey s :: seen)

/-- gdelt_recent_articles of the script, over the parsed article list. -/
def gdelt_recent_articles (arts : List RawArticle) : List Story := gdeltLoop arts []

/-- gdelt_top_stories of the script: the first n deduplicated articles. -/
def gdelt_top_stories (n : Nat) (arts : List RawArticle) : List Story :=
  (gdelt_recent_articles arts).take n

-- ---------------------------- PARTY CONTROL ----------------------------

/-- A party-control controller: the executive entry holds the executive party
field, the legislature entries hold the last-election-winner field. -/
inductive PCController
  | execParty (f : SimpleField)
  | legWinner (f : LegControlField)
deriving Repr, DecidableEq

/-- One entry of the partyControl list of build_country. -/
structure PCEntry where
  body : String
  controller : PCController
  controlType : String
  notes : String
deriving Repr, DecidableEq

/-- The Executive entry of the partyControl list. -/
def execEntry (f : SimpleField) : PCEntry :=
  { body := "Executive", controller := .execParty f, controlType := "leader-party",
    notes := "Derived from Head of Government party (fallback: Head of State party)." }

/-- One legislature entry of the partyControl list. -/
def legEntry (f : LegControlField) (body : String) : PCEntry :=
  { body := body, controller := .legWinner f, controlType := "last-election-winner",
    notes := "Approximate from last election winner (Wikidata P1346)." }

/-- The partyControl list construction of build_country: the Executive entry,
then one entry per legislature body, with the placeholder body "Legislature"
when no bodies were found. -/
def party_control (execParty : SimpleField) (legCtl : LegControlField)
    (bodies : List String) : List PCEntry :=
  execEntry execParty :: ((if bodies = [] then ["Legislature"] else bodies).map (legEntry legCtl))

-- ---------------------------- CONFIDENCE SCORER ----------------------------

/-- The observable outcomes that drive the warnings and confidence of
build_country.  The trends and news pairs encode the if/elif chains of the
script (for trends: no items at all, else proxy-derived items; for news: the
GDELT fetch raised, else fewer than TOP_NEWS_N stories). -/
structure QualityFlags where
  summaryEmpty : Bool
  qidMissing : Bool
  leadersEmpty : Bool
  polsysNotOk : Bool
  legControlNotOk : Bool
  freedomScoreMissing : Bool
  trendsEmpty : Bool
  trendsProxy : Bool
  newsFailed : Bool
  newsFew : Bool
  sparklineEmpty : Bool
deriving Repr, DecidableEq

/-- The 0.05 subtraction for a missing Wikipedia summary. -/
def pSummary (f : QualityFlags) : ℚ := if f.summaryEmpty then 5/100 else 0

/-- The 0.25 subtraction for a missing Wikidata entity. -/
def pQid (f : QualityFlags) : ℚ := if f.qidMissing then 25/100 else 0

/-- The 0.10 subtraction for missing leaders (only when the entity was found). -/
def pLeaders (f : QualityFlags) : ℚ :=
  if f.qidMissing then 0 else if f.leadersEmpty then 10/100 else 0

/-- The 0.05 subtraction for a missing political system (only when the entity was found). -/
def pPolsys (f : QualityFlags) : ℚ :=
  if f.qidMissing then 0 else if f.polsysNotOk then 5/100 else 0

/-- The 0.05 subtraction for a missing legislature-control winner
(only when the entity was found). -/
def pLegControl (f : QualityFlags) : ℚ :=
  if f.qidMissing then 0 else if f.legControlNotOk then 5/100 else 0

/-- The 0.05 subtraction for a missing freedom score. -/
def pFreedom (f : QualityFlags) : ℚ := if f.freedomScoreMissing then 5/100 else 0

/-- The 0.10 / 0.03 subtraction of the trends if/elif chain. -/
def pTrends (f : QualityFlags) : ℚ :=
  if f.trendsEmpty then 10/100 else if f.trendsProxy then 3/100 else 0

/-- The 0.15 / 0.05 subtraction of the news try/except and length check. -/
def pNews (f : QualityFlags) : ℚ :=
  if f.newsFailed then 15/100 else if f.newsFew then 5/100 else 0

/-- The 0.08 subtraction for an empty US-interest sparkline. -/
def pSpark (f : QualityFlags) : ℚ := if f.sparklineEmpty then 8/100 else 0

/-- The sequential confidence subtraction of build_country, before clamping
(penalties for leaders, political system and legislature control apply only in
the branch where the Wikidata entity was found). -/
def rawConfidence (f : QualityFlags) : ℚ :=
  1 - pSummary f - pQid f - pLeaders f - pPolsys f - pLegControl f
    - pFreedom f - pTrends f - pNews f - pSpark f

/-- The final confidence of build_country:
`round(max(0.0, min(1.0, confidence)), 2)`. -/
def confidence (f : QualityFlags) : ℚ :=
  pyRound (max 0 (min 1 (rawConfidence f))) 2

/-- pSummary in hundredths. -/
def cSummary (f : QualityFlags) : ℕ := if f.summaryEmpty then 5 else 0

/-- pQid in hundredths. -/
def cQid (f : QualityFlags) : ℕ := if f.qidMissing then 25 else 0

/-- pLeaders in hundredths. -/
def cLeaders (f : QualityFlags) : ℕ :=
  if f.qidMissing then 0 else if f.leadersEmpty then 10 else 0

/-- pPolsys in hundredths. -/
def cPolsys (f : QualityFlags) : ℕ :=
  if f.qidMissing then 0 else if f.polsysNotOk then 5 else 0

/-- pLegControl in hundredths. -/
def cLegControl (f : QualityFlags) : ℕ :=
  if f.qidMissing then 0 else if f.legControlNotOk then 5 else 0

/-- pFreedom in hundredths. -/
def cFreedom (f : QualityFlags) : ℕ := if f.freedomScoreMissing then 5 else 0

/-- pTrends in hundredths. -/
def cTrends (f : QualityFlags) : ℕ :=
  if f.trendsEmpty then 10 else if f.trendsProxy then 3 else 0

/-- pNews in hundredths. -/
def cNews (f : QualityFlags) : ℕ :=
  if f.newsFailed then 15 else if f.newsFew then 5 else 0

/-- pSpark in hundredths. -/
def cSpark (f : QualityFlags) : ℕ := if f.sparklineEmpty then 8 else 0

/-- The total penalty in hundredths, used to reason about confidence. -/
def penaltyCents (f : QualityFlags) : ℕ :=
  cSummary f + cQid f + cLeaders f + cPolsys f + cLegControl f
    + cFreedom f + cTrends f + cNews f + cSpark f

-- ---------------------------- BUILD ----------------------------

/-- The description block of the record (wikipedia_summary output; the fetch and
title fallback are adapter work, so the resulting summary and url are inputs). -/
structure Description where
  summary : String
  source : String
  url : String
deriving Repr, DecidableEq

/-- The government block of the output record. -/
structure Government where
  politicalSystem : SimpleField
  leaders : List Leader
  leadersSamePerson : Bool
  leaderNotes : String
  partyControl : List PCEntry
deriving Repr, DecidableEq

/-- The elections block of the output record. -/
structure Elections where
  nextNationalElection : ElectionField
  legislatureControlBasis : LegControlField
deriving Repr, DecidableEq

/-- The quality block of the output record. -/
structure Quality where
  confidence : ℚ
  warnings : List String
deriving Repr, DecidableEq

/-- The adapter-level inputs of build_country for one country: every network
response it consumes, already parsed (see the module comment).  The trends,
news-failure and sparkline fields are the observable outcomes of the
corresponding adapters. -/
structure BuildInputs where
  countryName : String
  iso2 : String
  summary : String
  summaryUrl : String
  qid : Option String
  polBindings : List PolBinding
  hosName : Option String
  hosParty : Option String
  hosUri : Option String
  hosPartyUri : Option String
  hogName : Option String
  hogParty : Option String
  hogUri : Option String
  hogPartyUri : Option String
  legLabels : List String
  upcoming : List ElecBinding
  hasPast : Bool
  winnerBindings : List WinnerBinding
  prTable : FHTable
  clTable : FHTable
  trendsItemsEmpty : Bool
  trendsIsProxy : Bool
  newsFailed : Bool
  newsArts : List RawArticle
  sparklineEmpty : Bool
deriving Repr, DecidableEq

/-- The output record of build_country (the trends and usInterest blocks are
adapter passthroughs, represented by their outcome flags in the inputs). -/
structure CountryRecord where
  country : String
  iso2 : String
  description : Description
  government : Government
  elections : Elections
  politicalFreedomRating : FreedomField
  topStories : List Story
  quality : Quality
deriving Repr, DecidableEq

/-- The politicalSystem field of build_country (unknown placeholder when the
Wikidata entity was not found). -/
def politicalSystemOf (inp : BuildInputs) : SimpleField :=
  if pyTruthy inp.qid then get_political_system_single (inp.qid.getD "") inp.polBindings
  else
    { status := "unknown", value := "",
      reason := some "wikidata_country_qid_not_found", sources := [] }

/-- The government snapshot of build_country (placeholder when the Wikidata
entity was not found). -/
def govOf (inp : BuildInputs) : GovSnapshot :=
  if pyTruthy inp.qid then
    get_government_snapshot (inp.qid.getD "")
      inp.hosName inp.hosParty inp.hosUri inp.hosPartyUri
      inp.hogName inp.hogParty inp.hogUri inp.hogPartyUri
      inp.legLabels
  else
    { leaders := [], leadersSamePerson := false, leaderNotes := "",
      executiveControllerParty :=
        { status := "unknown", value := "",
          reason := some "wikidata_country_qid_not_found", sources := [] },
      legislatureBodies := [] }

/-- The next-election field of build_country. -/
def nextElecOf (inp : BuildInputs) : ElectionField :=
  if pyTruthy inp.qid then
    get_next_national_election (inp.qid.getD "") inp.upcoming inp.hasPast
      (politicalSystemOf inp).value
  else
    { status := "unknown", reason := some "wikidata_country_qid_not_found",
      sources := [], date := "", name := "", typ := "", dateField := "",
      notes := "Wikidata country not found, cannot query elections.",
      holdsNationalGeneralElections := none, internalElections := none }

/-- The legislature-control field of build_country. -/
def legControlOf (inp : BuildInputs) : LegControlField :=
  if pyTruthy inp.qid then
    get_last_legislative_election_winner (inp.qid.getD "") inp.winnerBindings
  else
    { status := "unknown", value := "",
      reason := some "wikidata_country_qid_not_found", sources := [],
      electionName := "", electionDate := "",
      notes := "Wikidata country not found, cannot query legislative control." }

/-- The freedom-rating field of build_country. -/
def freedomOf (inp : BuildInputs) : FreedomField :=
  freedom_house_rating inp.countryName inp.prTable inp.clTable

/-- The stories of build_country (empty when the GDELT fetch raised). -/
def storiesOf (inp : BuildInputs) : List Story :=
  if inp.newsFailed then [] else gdelt_top_stories TOP_NEWS_N inp.newsArts

/-- The warning/penalty conditions of build_country, computed from the inputs. -/
def flagsOf (inp : BuildInputs) : QualityFlags :=
  { summaryEmpty := inp.summary == ""
    qidMissing := !pyTruthy inp.qid
    leadersEmpty := (govOf inp).leaders.isEmpty
    polsysNotOk := (politicalSystemOf inp).status != "ok"
    legControlNotOk := (legControlOf inp).status != "ok"
    freedomScoreMissing := (freedomOf inp).score.isNone
    trendsEmpty := inp.trendsItemsEmpty
    trendsProxy := inp.trendsIsProxy
    newsFailed := inp.newsFailed
    newsFew := !inp.newsFailed && decide ((storiesOf inp).length < TOP_NEWS_N)
    sparklineEmpty := inp.sparklineEmpty }

/-- The warning strings of build_country, in emission order. -/
def warningsOf (inp : BuildInputs) : List String :=
  let f := flagsOf inp
  (if f.summaryEmpty then ["Wikipedia summary missing/unavailable for this title."] else [])
  ++ (if f.qidMissing then
        ["Wikidata entity not found via ISO2; government/elections fields missing."] else [])
  ++ (if !f.qidMissing && f.leadersEmpty then ["Leader fields missing (Wikidata gaps)."] else [])
  ++ (if !f.qidMissing && f.polsysNotOk then ["Political system missing from Wikidata."] else [])
  ++ (if !f.qidMissing && f.legControlNotOk then
        ["Legislative control winner not found (Wikidata election winner missing)."] else [])
  ++ (if f.freedomScoreMissing then
        ["Political freedom rating unavailable (OWID Freedom House tables missing this entity)."]
      else [])
  ++ (if f.trendsEmpty then ["Top searches unavailable; proxy trends also empty."]
      else if f.trendsProxy then
        ["Top searches are proxy trends (news-derived), not actual search queries."] else [])
  ++ (if f.newsFailed then ["GDELT fetch failed; news empty."]
      else if f.newsFew then ["Fewer than 3 recent English stories found via GDELT."] else [])
  ++ (if f.sparklineEmpty then
        ["US search interest unavailable/empty via Google Trends (common in CI)."] else [])

/-- build_country of the script, over the adapter inputs. -/
def build_country (inp : BuildInputs) : CountryRecord :=
  { country := inp.countryName
    iso2 := inp.iso2
    description := { summary := inp.summary, source := "wikipedia", url := inp.summaryUrl }
    government :=
      { politicalSystem := politicalSystemOf inp
        leaders := (govOf inp).leaders
        leadersSamePerson := (govOf inp).leadersSamePerson
        leaderNotes := (govOf inp).leaderNotes
        partyControl :=
          party_control (govOf inp).executiveControllerParty (legControlOf inp)
            (govOf inp).legislatureBodies }
    elections :=
      { nextNationalElection := nextElecOf inp
        legislatureControlBasis := legControlOf inp }
    politicalFreedomRating := freedomOf inp
    topStories := storiesOf inp
    quality := { confidence := confidence (flagsOf inp), warnings := warningsOf inp } }

-- ---------------------------- SPEC-SIDE DEFINITIONS ----------------------------

/-- The closed status vocabulary of the spec (section 3, FieldResult). -/
def FIELD_STATUS_ENUM : List String :=
  ["ok", "computed", "estimated", "unknown", "not_applicable", "blocked"]

/-- Is a status inside the closed enum of the spec? -/
def statusInEnum (s : String) : Bool := FIELD_STATUS_ENUM.contains s

/-- Statuses that may carry a value, per the spec. -/
def valueBearing (s : String) : Bool := (["ok", "computed", "estimated"] : List String).contains s

/-- The no-silent-nulls check for a simple field: status inside the closed enum,
and an empty value whenever the status is not value-bearing. -/
def simpleFieldOK (f : SimpleField) : Bool :=
  statusInEnum f.status && (valueBearing f.status || f.value == "")

/-- The no-silent-nulls check for the election field, whose payload lives under
date/name; the nested internalElections field must also pass. -/
def electionFieldOK (f : ElectionField) : Bool :=
  statusInEnum f.status && (valueBearing f.status || (f.date == "" && f.name == "")) &&
    (match f.internalElections with
     | none => true
     | some g => simpleFieldOK g)

/-- The no-silent-nulls check for the legislature-control field. -/
def legFieldOK (f : LegControlField) : Bool :=
  statusInEnum f.status && (valueBearing f.status || f.value == "")

/-- The no-silent-nulls check for a partyControl controller. -/
def controllerOK : PCController → Bool
  | .execParty f => simpleFieldOK f
  | .legWinner f => legFieldOK f

/-- The no-silent-nulls check over every FieldResult-shaped field of a record. -/
def recordFieldsOK (r : CountryRecord) : Bool :=
  simpleFieldOK r.government.politicalSystem &&
  electionFieldOK r.elections.nextNationalElection &&
  legFieldOK r.elections.legislatureControlBasis &&
  r.government.partyControl.all (fun e => controllerOK e.controller)

-- ---------------------------- STICKY MERGE (SPEC-MODELLED) ----------------------------

/-- Modelled from the spec: the FieldResult shape of spec section 3 used by the
Sticky Merge contract of spec section 4.3.  The Sticky Merge component is
described by the spec but absent from src/scripts/build_countries_snapshot.py
(the script never reads a previous snapshot), so its shape and rule are
modelled from the spec's words. -/
structure SpecFieldResult where
  status : String
  value : String
  reason : Option String
  provenance : List String
  notes : String
deriving Repr, DecidableEq

/-- Modelled from the spec: the notes text recording that a value was carried
over from the previous snapshot and why the refresh failed. -/
def carriedOverNotes (value reason : String) : String :=
  "Carried over previous value " ++ value ++ " because refresh failed: " ++ reason

/-- Modelled from the spec: Sticky Merge (spec section 4.3).  Fresh ok data wins;
otherwise an ok previous value is returned with rewritten notes; otherwise the
fresh result is returned unchanged. -/
def sticky_merge (newR : SpecFieldResult) (previous : Option SpecFieldResult) : SpecFieldResult :=
  if newR.status = "ok" then newR
  else
    match previous with
    | some p =>
      if p.status = "ok" then
        { p with notes := carriedOverNotes p.value (newR.reason.getD "") }
      else newR
    | none => newR

-- ---------------------------- NEWS TOPIC KEY (SPEC-MODELLED) ----------------------------

/-- Modelled from the spec: the fixed stopword list of the News Deduplicator
(spec section 4.5 names "a fixed stopword list"; the repository's only stopword
list, in _extract_proxy_trends_from_titles, is used). -/
def specStopwords : List String :=
  ["after", "with", "from", "that", "this", "they", "their", "have", "will", "would", "could",
   "says", "said", "over", "into", "amid", "more", "than", "about", "what", "when", "been",
   "were", "also", "which", "who", "your", "them", "today", "news", "update", "latest",
   "country", "government", "president", "minister", "prime", "state"]

/-- Remove every occurrence of a pattern from a character list (structural on a
fuel argument so the definition evaluates). -/
def removeSubAux (pat : List Char) : Nat → List Char → List Char
  | 0, s => s
  | _ + 1, [] => []
  | fuel + 1, c :: rest =>
    if !pat.isEmpty && pat.isPrefixOf (c :: rest) then
      removeSubAux pat fuel ((c :: rest).drop pat.length)
    else c :: removeSubAux pat fuel rest

/-- Remove every occurrence of a substring from a string. -/
def removeSub (s pat : String) : String :=
  ⟨removeSubAux pat.data s.data.length s.data⟩

/-- Split a character list into space-separated tokens. -/
def splitSpaces : List Char → List (List Char)
  | [] => [[]]
  | c :: rest =>
    let r := splitSpaces rest
    if c == ' ' then [] :: r
    else
      match r with
      | [] => [[c]]
      | t :: ts => (c :: t) :: ts

/-- Modelled from the spec: punctuation stripping of the topic key
(every character that is not alphanumeric, whitespace or a hyphen becomes a space). -/
def stripPunct (s : String) : String :=
  ⟨s.data.map fun c =>
    if c.isAlphanum || c == ' ' || c == '-' then c else ' '⟩

/-- Modelled from the spec: the topic key of the News Deduplicator
(spec section 4.5): strip the country's name/aliases, strip punctuation,
lower-case, remove stopwords, take the first k remaining tokens. -/
def specTopicKey (aliases : List String) (k : Nat) (title : String) : List String :=
  let t1 := aliases.foldl (fun s a => removeSub s a) title
  let t2 := pyLower (stripPunct t1)
  let toks := ((splitSpaces t2.data).map fun l => (⟨l⟩ : String)).filter (fun w => w != "")
  (toks.filter fun w => !specStopwords.contains w).take k

-- ---------------------------- HELPER LEMMAS: ROUNDING ----------------------------

/-- Half-even rounding is the identity on integers. -/
lemma halfEvenRound_intCast (n : ℤ) : halfEvenRound (n : ℚ) = n := by
  unfold halfEvenRound
  simp only [Rat.intCast_num, Rat.intCast_den, Int.fdiv_one, sub_self]
  norm_num

-- ---------------------------- HELPER LEMMAS: CONFIDENCE ----------------------------

/-- Each rational penalty is its hundredths value divided by 100. -/
lemma pSummary_eq (f : QualityFlags) : pSummary f = (cSummary f : ℚ) / 100 := by
  unfold pSummary cSummary; split_ifs <;> norm_num

/-- pQid agrees with cQid. -/
lemma pQid_eq (f : QualityFlags) : pQid f = (cQid f : ℚ) / 100 := by
  unfold pQid cQid; split_ifs <;> norm_num

/-- pLeaders agrees with cLeaders. -/
lemma pLeaders_eq (f : QualityFlags) : pLeaders f = (cLeaders f : ℚ) / 100 := by
  unfold pLeaders cLeaders; split_ifs <;> norm_num

/-- pPolsys agrees with cPolsys. -/
lemma pPolsys_eq (f : QualityFlags) : pPolsys f = (cPolsys f : ℚ) / 100 := by
  unfold pPolsys cPolsys; split_ifs <;> norm_num

/-- pLegControl agrees with cLegControl. -/
lemma pLegControl_eq (f : QualityFlags) : pLegControl f = (cLegControl f : ℚ) / 100 := by
  unfold pLegControl cLegControl; split_ifs <;> norm_num

/-- pFreedom agrees with cFreedom. -/
lemma pFreedom_eq (f : QualityFlags) : pFreedom f = (cFreedom f : ℚ) / 100 := by
  unfold pFreedom cFreedom; split_ifs <;> norm_num

/-- pTrends agrees with cTrends. -/
lemma pTrends_eq (f : QualityFlags) : pTrends f = (cTrends f : ℚ) / 100 := by
  unfold pTrends cTrends; split_ifs <;> norm_num

/-- pNews agrees with cNews. -/
lemma pNews_eq (f : QualityFlags) : pNews f = (cNews f : ℚ) / 100 := by
  unfold pNews cNews; split_ifs <;> norm_num

/-- pSpark agrees with cSpark. -/
lemma pSpark_eq (f : QualityFlags) : pSpark f = (cSpark f : ℚ) / 100 := by
  unfold pSpark cSpark; split_ifs <;> norm_num

/-- The sequential penalty subtraction equals one minus the penalty total in hundredths. -/
lemma rawConfidence_eq (f : QualityFlags) :
    rawConfidence f = 1 - (penaltyCents f : ℚ) / 100 := by
  unfold rawConfidence penaltyCents
  rw [pSummary_eq, pQid_eq, pLeaders_eq, pPolsys_eq, pLegControl_eq, pFreedom_eq,
    pTrends_eq, pNews_eq, pSpark_eq]
  push_cast
  ring

/-- The four entity-dependent penalties total at most 25 hundredths. -/
lemma centsQidGroup_le (f : QualityFlags) :
    cQid f + cLeaders f + cPolsys f + cLegControl f ≤ 25 := by
  unfold cQid cLeaders cPolsys cLegControl
  cases h : f.qidMissing with
  | true => simp [h]
  | false =>
    simp only [h, Bool.false_eq_true, if_false]
    split_ifs <;> omega

/-- The penalty total never exceeds 68 hundredths. -/
lemma penaltyCents_le (f : QualityFlags) : penaltyCents f ≤ 68 := by
  have h1 := centsQidGroup_le f
  have h2 : cSummary f ≤ 5 := by unfold cSummary; split_ifs <;> omega
  have h3 : cFreedom f ≤ 5 := by unfold cFreedom; split_ifs <;> omega
  have h4 : cTrends f ≤ 10 := by unfold cTrends; split_ifs <;> omega
  have h5 : cNews f ≤ 15 := by unfold cNews; split_ifs <;> omega
  have h6 : cSpark f ≤ 8 := by unfold cSpark; split_ifs <;> omega
  unfold penaltyCents
  omega

/-- The clamped, rounded confidence equals one minus the penalty total in hundredths
(the clamp never binds and the value is an exact multiple of one hundredth). -/
lemma confidence_eq (f : QualityFlags) :
    confidence f = 1 - (penaltyCents f : ℚ) / 100 := by
  have h68 := penaltyCents_le f
  have h0 : (0 : ℚ) ≤ (penaltyCents f : ℚ) / 100 := by positivity
  have h68q : ((penaltyCents f : ℚ)) ≤ 68 := by exact_mod_cast h68
  have h68d : ((penaltyCents f : ℚ)) / 100 ≤ 68 / 100 := by linarith
  unfold confidence pyRound
  rw [rawConfidence_eq, min_eq_right (by linarith), max_eq_right (by linarith)]
  have hmul : (1 - (penaltyCents f : ℚ) / 100) * 10 ^ 2 =
      (((100 - (penaltyCents f : ℤ)) : ℤ) : ℚ) := by push_cast; ring
  rw [hmul, halfEvenRound_intCast]
  push_cast
  ring

/-- One additional failed signal, as a degradation of the quality flags. -/
inductive Degradation
  | summary
  | qid
  | leaders
  | polsys
  | legControl
  | freedom
  | trendsEmpty
  | trendsProxy
  | newsFailed
  | newsFew
  | spark
deriving Repr, DecidableEq

/-- The signal of a degradation is currently unfailed (the leaders, political-system
and legislature-control signals exist only when the Wikidata entity was found,
and a degradation inside an if/elif chain requires the chain's earlier branch
to be off). -/
def okAt (f : QualityFlags) : Degradation → Prop
  | .summary => f.summaryEmpty = false
  | .qid => f.qidMissing = false
  | .leaders => f.qidMissing = false ∧ f.leadersEmpty = false
  | .polsys => f.qidMissing = false ∧ f.polsysNotOk = false
  | .legControl => f.qidMissing = false ∧ f.legControlNotOk = false
  | .freedom => f.freedomScoreMissing = false
  | .trendsEmpty => f.trendsEmpty = false
  | .trendsProxy => f.trendsEmpty = false ∧ f.trendsProxy = false
  | .newsFailed => f.newsFailed = false
  | .newsFew => f.newsFailed = false ∧ f.newsFew = false
  | .spark => f.sparklineEmpty = false

/-- Flip one signal of the quality flags to failed. -/
def degrade (f : QualityFlags) : Degradation → QualityFlags
  | .summary => { f with summaryEmpty := true }
  | .qid => { f with qidMissing := true }
  | .leaders => { f with leadersEmpty := true }
  | .polsys => { f with polsysNotOk := true }
  | .legControl => { f with legControlNotOk := true }
  | .freedom => { f with freedomScoreMissing := true }
  | .trendsEmpty => { f with trendsEmpty := true }
  | .trendsProxy => { f with trendsProxy := true }
  | .newsFailed => { f with newsFailed := true }
  | .newsFew => { f with newsFew := true }
  | .spark => { f with sparklineEmpty := true }

/-- Degrading an unfailed signal strictly increases the penalty total. -/
lemma penaltyCents_lt (f : QualityFlags) (d : Degradation) (h : okAt f d) :
    penaltyCents f < penaltyCents (degrade f d) := by
  cases d with
  | summary =>
    have h0 : f.summaryEmpty = false := h
    show cSummary f + cQid f + cLeaders f + cPolsys f + cLegControl f
        + cFreedom f + cTrends f + cNews f + cSpark f
      < cSummary (degrade f .summary) + cQid f + cLeaders f + cPolsys f + cLegControl f
        + cFreedom f + cTrends f + cNews f + cSpark f
    have e1 : cSummary f = 0 := by simp [cSummary, h0]
    have e2 : cSummary (degrade f .summary) = 5 := by simp [cSummary, degrade]
    omega
  | qid =>
    have h0 : f.qidMissing = false := h
    show cSummary f + cQid f + cLeaders f + cPolsys f + cLegControl f
        + cFreedom f + cTrends f + cNews f + cSpark f
      < cSummary f + cQid (degrade f .qid) + cLeaders (degrade f .qid)
        + cPolsys (degrade f .qid) + cLegControl (degrade f .qid)
        + cFreedom f + cTrends f + cNews f + cSpark f
    have e1 : cQid f = 0 := by simp [cQid, h0]
    have e2 : cQid (degrade f .qid) = 25 := by simp [cQid, degrade]
    have e3 : cLeaders (degrade f .qid) = 0 := by simp [cLeaders, degrade]
    have e4 : cPolsys (degrade f .qid) = 0 := by simp [cPolsys, degrade]
    have e5 : cLegControl (degrade f .qid) = 0 := by simp [cLegControl, degrade]
    have b1 : cLeaders f ≤ 10 := by unfold cLeaders; split_ifs <;> omega
    have b2 : cPolsys f ≤ 5 := by unfold cPolsys; split_ifs <;> omega
    have b3 : cLegControl f ≤ 5 := by unfold cLegControl; split_ifs <;> omega
    omega
  | leaders =>
    obtain ⟨h1, h2⟩ := h
    show cSummary f + cQid f + cLeaders f + cPolsys f + cLegControl f
        + cFreedom f + cTrends f + cNews f + cSpark f
      < cSummary f + cQid f + cLeaders (degrade f .leaders) + cPolsys f + cLegControl f
        + cFreedom f + cTrends f + cNews f + cSpark f
    have e1 : cLeaders f = 0 := by simp [cLeaders, h1, h2]
    have e2 : cLeaders (degrade f .leaders) = 10 := by simp [cLeaders, degrade, h1]
    omega
  | polsys =>
    obtain ⟨h1, h2⟩ := h
    show cSummary f + cQid f + cLeaders f + cPolsys f + cLegControl f
        + cFreedom f + cTrends f + cNews f + cSpark f
      < cSummary f + cQid f + cLeaders f + cPolsys (degrade f .polsys) + cLegControl f
        + cFreedom f + cTrends f + cNews f + cSpark f
    have e1 : cPolsys f = 0 := by simp [cPolsys, h1, h2]
    have e2 : cPolsys (degrade f .polsys) = 5 := by simp [cPolsys, degrade, h1]
    omega
  | legControl =>
    obtain ⟨h1, h2⟩ := h
    show cSummary f + cQid f + cLeaders f + cPolsys f + cLegControl f
        + cFreedom f + cTrends f + cNews f + cSpark f
      < cSummary f + cQid f + cLeaders f + cPolsys f + cLegControl (degrade f .legControl)
        + cFreedom f + cTrends f + cNews f + cSpark f
    have e1 : cLegControl f = 0 := by simp [cLegControl, h1, h2]
    have e2 : cLegControl (degrade f .legControl) = 5 := by simp [cLegControl, degrade, h1]
    omega
  | freedom =>
    have h0 : f.freedomScoreMissing = false := h
    show cSummary f + cQid f + cLeaders f + cPolsys f + cLegControl f
        + cFreedom f + cTrends f + cNews f + cSpark f
      < cSummary f + cQid f + cLeaders f + cPolsys f + cLegControl f
        + cFreedom (degrade f .freedom) + cTrends f + cNews f + cSpark f
    have e1 : cFreedom f = 0 := by simp [cFreedom, h0]
    have e2 : cFreedom (degrade f .freedom) = 5 := by simp [cFreedom, degrade]
    omega
  | trendsEmpty =>
    have h0 : f.trendsEmpty = false := h
    show cSummary f + cQid f + cLeaders f + cPolsys f + cLegControl f
        + cFreedom f + cTrends f + cNews f + cSpark f
      < cSummary f + cQid f + cLeaders f + cPolsys f + cLegControl f
        + cFreedom f + cTrends (degrade f .trendsEmpty) + cNews f + cSpark f
    have e1 : cTrends f ≤ 3 := by
      unfold cTrends; rw [h0]; split_ifs <;> first | omega | simp_all
    have e2 : cTrends (degrade f .trendsEmpty) = 10 := by simp [cTrends, degrade]
    omega
  | trendsProxy =>
    obtain ⟨h1, h2⟩ := h
    show cSummary f + cQid f + cLeaders f + cPolsys f + cLegControl f
        + cFreedom f + cTrends f + cNews f + cSpark f
      < cSummary f + cQid f + cLeaders f + cPolsys f + cLegControl f
        + cFreedom f + cTrends (degrade f .trendsProxy) + cNews f + cSpark f
    have e1 : cTrends f = 0 := by simp [cTrends, h1, h2]
    have e2 : cTrends (degrade f .trendsProxy) = 3 := by simp [cTrends, degrade, h1]
    omega
  | newsFailed =>
    have h0 : f.newsFailed = false := h
    show cSummary f + cQid f + cLeaders f + cPolsys f + cLegControl f
        + cFreedom f + cTrends f + cNews f + cSpark f
      < cSummary f + cQid f + cLeaders f + cPolsys f + cLegControl f
        + cFreedom f + cTrends f + cNews (degrade f .newsFailed) + cSpark f
    have e1 : cNews f ≤ 5 := by
      unfold cNews; rw [h0]; split_ifs <;> first | omega | simp_all
    have e2 : cNews (degrade f .newsFailed) = 15 := by simp [cNews, degrade]
    omega
  | newsFew =>
    obtain ⟨h1, h2⟩ := h
    show cSummary f + cQid f + cLeaders f + cPolsys f + cLegControl f
        + cFreedom f + cTrends f + cNews f + cSpark f
      < cSummary f + cQid f + cLeaders f + cPolsys f + cLegControl f
        + cFreedom f + cTrends f + cNews (degrade f .newsFew) + cSpark f
    have e1 : cNews f = 0 := by simp [cNews, h1, h2]
    have e2 : cNews (degrade f .newsFew) = 5 := by simp [cNews, degrade, h1]
    omega
  | spark =>
    have h0 : f.sparklineEmpty = false := h
    show cSummary f + cQid f + cLeaders f + cPolsys f + cLegControl f
        + cFreedom f + cTrends f + cNews f + cSpark f
      < cSummary f + cQid f + cLeaders f + cPolsys f + cLegControl f
        + cFreedom f + cTrends f + cNews f + cSpark (degrade f .spark)
    have e1 : cSpark f = 0 := by simp [cSpark, h0]
    have e2 : cSpark (degrade f .spark) = 8 := by simp [cSpark, degrade]
    omega

/-- Degrading an unfailed signal strictly decreases the confidence. -/
lemma confidence_lt (f : QualityFlags) (d : Degradation) (h : okAt f d) :
    confidence (degrade f d) < confidence f := by
  rw [confidence_eq, confidence_eq]
  have hlt := penaltyCents_lt f d h
  have hq : (penaltyCents f : ℚ) < (penaltyCents (degrade f d) : ℚ) := by exact_mod_cast hlt
  have hdiv : (penaltyCents f : ℚ) / 100 < (penaltyCents (degrade f d) : ℚ) / 100 := by
    exact (div_lt_div_iff_of_pos_right (by norm_num)).mpr hq
  linarith

/-- The confidence is never negative. -/
lemma confidence_nonneg (f : QualityFlags) : 0 ≤ confidence f := by
  rw [confidence_eq]
  have h68 := penaltyCents_le f
  have h68q : ((penaltyCents f : ℚ)) ≤ 68 := by exact_mod_cast h68
  have : (penaltyCents f : ℚ) / 100 ≤ 68 / 100 := by linarith
  linarith

/-- The confidence never exceeds one. -/
lemma confidence_le_one (f : QualityFlags) : confidence f ≤ 1 := by
  rw [confidence_eq]
  have h0 : (0 : ℚ) ≤ (penaltyCents f : ℚ) / 100 := by positivity
  linarith

/-- The all-unfailed flag assignment. -/
def allOkFlags : QualityFlags :=
  { summaryEmpty := false, qidMissing := false, leadersEmpty := false,
    polsysNotOk := false, legControlNotOk := false, freedomScoreMissing := false,
    trendsEmpty := false, trendsProxy := false, newsFailed := false,
    newsFew := false, sparklineEmpty := false }

/-- A country with every signal unfailed scores confidence one. -/
lemma confidence_allOk : confidence allOkFlags = 1 := by
  rw [confidence_eq]
  norm_num [penaltyCents, cSummary, cQid, cLeaders, cPolsys, cLegControl, cFreedom,
    cTrends, cNews, cSpark, allOkFlags]

-- ---------------------------- HELPER LEMMAS: NEWS DEDUP ----------------------------

/-- Every story emitted by the gdelt loop has a key outside the seen set. -/
lemma gdeltLoop_fresh :
    ∀ (arts : List RawArticle) (seen : List (String × String)) (s : Story),
      s ∈ gdeltLoop arts seen → storyKey s ∉ seen := by
  intro arts
  induction arts with
  | nil => intro seen s h; simp [gdeltLoop] at h
  | cons a t ih =>
    intro seen s h
    unfold gdeltLoop at h
    cases hA : articleStory a with
    | none => rw [hA] at h; exact ih seen s h
    | some st =>
      rw [hA] at h
      dsimp only at h
      by_cases hc : storyKey st ∈ seen
      · rw [if_pos hc] at h; exact ih seen s h
      · rw [if_neg hc] at h
        rcases List.mem_cons.mp h with rfl | hmem
        · exact hc
        · intro hin
          exact ih _ s hmem (List.mem_cons_of_mem _ hin)

/-- The stories emitted by the gdelt loop have pairwise distinct keys. -/
lemma gdeltLoop_pairwise :
    ∀ (arts : List RawArticle) (seen : List (String × String)),
      (gdeltLoop arts seen).Pairwise (fun s t => storyKey s ≠ storyKey t) := by
  intro arts
  induction arts with
  | nil => intro seen; simp [gdeltLoop]
  | cons a t ih =>
    intro seen
    unfold gdeltLoop
    cases hA : articleStory a with
    | none => exact ih seen
    | some st =>
      dsimp only
      by_cases hc : storyKey st ∈ seen
      · rw [if_pos hc]; exact ih seen
      · rw [if_neg hc]
        refine List.Pairwise.cons ?_ (ih _)
        intro s hs hEq
        exact gdeltLoop_fresh t _ s hs (hEq ▸ List.mem_cons_self _ _)

/-- The gdelt loop's output is an order-preserving selection from the processed
article stream. -/
lemma gdeltLoop_sublist :
    ∀ (arts : List RawArticle) (seen : List (String × String)),
      List.Sublist (gdeltLoop arts seen) (arts.filterMap articleStory) := by
  intro arts
  induction arts with
  | nil => intro seen; simp [gdeltLoop]
  | cons a t ih =>
    intro seen
    unfold gdeltLoop
    rw [List.filterMap_cons]
    cases hA : articleStory a with
    | none => exact ih seen
    | some st =>
      dsimp only
      by_cases hc : storyKey st ∈ seen
      · rw [if_pos hc]; exact (ih seen).cons st
      · rw [if_neg hc]; exact (ih _).cons₂ st

-- ---------------------------- HELPER LEMMAS: FREEDOM RATING ----------------------------

/-- In a list sorted ascending, the last element bounds every member. -/
lemma sorted_getLast_max :
    ∀ (l : List Int), l.Sorted (· ≤ ·) →
      ∀ z, l.getLast? = some z → ∀ y ∈ l, y ≤ z := by
  intro l
  induction l with
  | nil => intro _ z hz; simp at hz
  | cons a rest ih =>
    intro hs z hz y hy
    cases rest with
    | nil =>
      simp at hz hy
      omega
    | cons b t =>
      rw [List.getLast?_cons_cons] at hz
      have hs2 := (List.sorted_cons.mp hs).2
      have ha := (List.sorted_cons.mp hs).1
      rcases List.mem_cons.mp hy with rfl | hmem
      · have hzmem : z ∈ b :: t := List.mem_of_getLast?_eq_some hz
        exact ha z hzmem
      · exact ih hs2 z hz y hmem

/-- The common-year list is sorted ascending. -/
lemma commonYearsSorted_sorted (pr cl : List (Int × ℚ)) :
    (commonYearsSorted pr cl).Sorted (· ≤ ·) := by
  unfold commonYearsSorted
  exact List.sorted_insertionSort _ _

/-- The year selected by the candidate loop is the greatest common year of the
entity it selects. -/
lemma fhPickLoop_year (prT clT : FHTable) :
    ∀ (cands : List String) (p : FHPick),
      fhPickLoop prT clT cands = some p →
      (commonYearsSorted (lookupTable prT p.entity) (lookupTable clT p.entity)).getLast?
        = some p.year ∧
      ∀ y ∈ commonYearsSorted (lookupTable prT p.entity) (lookupTable clT p.entity),
        y ≤ p.year := by
  intro cands
  induction cands with
  | nil => intro p hp; simp [fhPickLoop] at hp
  | cons ent rest ih =>
    intro p hp
    unfold fhPickLoop at hp
    by_cases h0 : lookupTable prT ent = [] ∨ lookupTable clT ent = []
    · rw [if_pos h0] at hp; exact ih p hp
    · rw [if_neg h0] at hp
      cases hL : (commonYearsSorted (lookupTable prT ent) (lookupTable clT ent)).getLast? with
      | none => rw [hL] at hp; exact ih p hp
      | some y =>
        rw [hL] at hp
        dsimp only at hp
        have hpe : p = ⟨ent, y, lookupYear (lookupTable prT ent) y,
            lookupYear (lookupTable clT ent) y⟩ := by
          exact (Option.some.injEq _ _).mp hp.symm |>.symm ▸ rfl
        subst hpe
        refine ⟨hL, ?_⟩
        intro z hz
        exact sorted_getLast_max _ (commonYearsSorted_sorted _ _) y hL z hz

/-- When the candidate loop selects nothing the rating is the unknown dict. -/
lemma freedom_house_rating_none (name : String) (prT clT : FHTable)
    (h : fhPickLoop prT clT (fhCandidates name) = none) :
    freedom_house_rating name prT clT =
      { score := none, status := "unknown", year := none, components := none,
        sourceEntityName := none,
        notes := "Freedom House score not found in OWID tables." } := by
  unfold freedom_house_rating
  rw [h]

/-- When the candidate loop selects a pick the rating is computed from it. -/
lemma freedom_house_rating_some (name : String) (prT clT : FHTable) (p : FHPick)
    (h : fhPickLoop prT clT (fhCandidates name) = some p) :
    freedom_house_rating name prT clT =
      { score := some (pyRound (p.pr + p.cl) 1),
        status := if 70 ≤ p.pr + p.cl then "Free"
                  else if 35 ≤ p.pr + p.cl then "Partly Free" else "Not Free",
        year := some p.year,
        components := some (pyRound p.pr 1, pyRound p.cl 1),
        sourceEntityName := some p.entity,
        notes := "Computed as PR(0–40)+CL(0–60) using OWID grapher (Freedom House)." } := by
  unfold freedom_house_rating
  rw [h]

-- ---------------------------- HELPER LEMMAS: NO SILENT NULLS ----------------------------

/-- The executive-controller field always passes the no-silent-nulls check. -/
lemma simpleFieldOK_exec (qid : String) (hog hos : Option String) :
    simpleFieldOK (execControllerParty qid hog hos) = true := by
  unfold execControllerParty
  split_ifs <;> rfl

/-- The political-system field always passes the no-silent-nulls check. -/
lemma simpleFieldOK_polsys (qid : String) (bs : List PolBinding) :
    simpleFieldOK (get_political_system_single qid bs) = true := by
  cases bs <;> rfl

/-- The next-election field always passes the no-silent-nulls check. -/
lemma electionFieldOK_next (qid : String) (bs : List ElecBinding) (hp : Bool)
    (label : String) :
    electionFieldOK (get_next_national_election qid bs hp label) = true := by
  cases bs with
  | cons b t => rfl
  | nil =>
    unfold get_next_national_election
    dsimp only
    split <;> rfl

/-- The legislature-control field always passes the no-silent-nulls check. -/
lemma legFieldOK_winner (qid : String) (bs : List WinnerBinding) :
    legFieldOK (get_last_legislative_election_winner qid bs) = true := by
  cases bs with
  | nil => rfl
  | cons b t =>
    unfold get_last_legislative_election_winner
    dsimp only
    split <;> rfl

/-- Every controller of the partyControl list passes the no-silent-nulls check
when its two source fields do. -/
lemma party_control_all_ok (e : SimpleField) (l : LegControlField) (bodies : List String)
    (he : simpleFieldOK e = true) (hl : legFieldOK l = true) :
    (party_control e l bodies).all (fun en => controllerOK en.controller) = true := by
  unfold party_control
  rw [List.all_cons]
  have hhead : controllerOK (execEntry e).controller = true := by
    simpa [execEntry, controllerOK] using he
  have htail : ∀ bs : List String,
      (bs.map (legEntry l)).all (fun en => controllerOK en.controller) = true := by
    intro bs
    induction bs with
    | nil => rfl
    | cons b t ih => simp only [List.map_cons, List.all_cons, ih, Bool.and_true]
                     simpa [legEntry, controllerOK] using hl
  rw [hhead, htail]
  rfl

-- ---------------------------- CLAIM C1 ----------------------------

/-- Concrete inputs for claim C1: the country has no Wikidata entity and a
freedom-rating table entry totalling 75. -/
def c1Inputs : BuildInputs :=
  { countryName := "Atlantis", iso2 := "AT", summary := "", summaryUrl := "",
    qid := none, polBindings := [],
    hosName := none, hosParty := none, hosUri := none, hosPartyUri := none,
    hogName := none, hogParty := none, hogUri := none, hogPartyUri := none,
    legLabels := [], upcoming := [], hasPast := false, winnerBindings := [],
    prTable := [("Atlantis", [(2024, 35)])], clTable := [("Atlantis", [(2024, 40)])],
    trendsItemsEmpty := true, trendsIsProxy := false, newsFailed := false, newsArts := [],
    sparklineEmpty := true }

/-- Claim C1, counterexample: the politicalFreedomRating field of an output record
carries the qualitative Freedom House status "Free", which is not one of the six
closed enum values, with a non-empty score - so not every field of every record
keeps its status inside the closed enum. -/
theorem c1_freedom_status_outside_enum :
    (build_country c1Inputs).politicalFreedomRating.status = "Free" ∧
    statusInEnum "Free" = false ∧
    (build_country c1Inputs).politicalFreedomRating.score ≠ none := by
  have hpick : fhPickLoop c1Inputs.prTable c1Inputs.clTable (fhCandidates "Atlantis")
      = some ⟨"Atlantis", 2024, 35, 40⟩ := by decide
  have hfr : (build_country c1Inputs).politicalFreedomRating
      = freedom_house_rating "Atlantis" c1Inputs.prTable c1Inputs.clTable := rfl
  rw [hfr, freedom_house_rating_some _ _ _ _ hpick]
  have h70 : ((70:ℚ) ≤ 35 + 40) := by norm_num
  refine ⟨?_, by decide, by simp⟩
  dsimp only
  rw [if_pos h70]

/-- Claim C1 (amended): every FieldResult-shaped field of every output record -
the political system, every partyControl controller, the next-election field
with its nested internalElections field, and the legislature-control field -
has its status inside the closed enum (the code uses only ok, computed, unknown
and not_applicable) and an empty payload whenever the status is not
value-bearing; the politicalFreedomRating field is the exception the
counterexample exhibits, carrying the qualitative Freedom House status instead. -/
theorem no_silent_nulls_amended (inp : BuildInputs) :
    recordFieldsOK (build_country inp) = true := by
  have h1 : simpleFieldOK (politicalSystemOf inp) = true := by
    unfold politicalSystemOf
    split
    · exact simpleFieldOK_polsys _ _
    · rfl
  have h2 : electionFieldOK (nextElecOf inp) = true := by
    unfold nextElecOf
    split
    · exact electionFieldOK_next _ _ _ _
    · rfl
  have h3 : legFieldOK (legControlOf inp) = true := by
    unfold legControlOf
    split
    · exact legFieldOK_winner _ _
    · rfl
  have h4 : simpleFieldOK (govOf inp).executiveControllerParty = true := by
    unfold govOf
    split
    · exact simpleFieldOK_exec _ _ _
    · rfl
  unfold recordFieldsOK build_country
  dsimp only
  rw [h1, h2, h3, party_control_all_ok _ _ _ h4 h3]
  rfl

-- ---------------------------- CLAIM C2 ----------------------------

/-- Claim C2: the spec-modelled Sticky Merge satisfies the claimed equations -
a fresh ok result always wins; with no previous result the fresh result is
returned; and a failed refresh over an ok previous result returns the previous
value with status ok, the previous provenance, and notes recording the
carried-over value and the failed refresh reason. -/
theorem sticky_merge_spec (newR p : SpecFieldResult) (previous : Option SpecFieldResult) :
    (newR.status = "ok" → sticky_merge newR previous = newR) ∧
    sticky_merge newR none = newR ∧
    (newR.status ≠ "ok" → p.status = "ok" →
      (sticky_merge newR (some p)).status = "ok" ∧
      (sticky_merge newR (some p)).value = p.value ∧
      (sticky_merge newR (some p)).provenance = p.provenance ∧
      (sticky_merge newR (some p)).notes =
        carriedOverNotes p.value (newR.reason.getD "")) := by
  refine ⟨?_, ?_, ?_⟩
  · intro h
    unfold sticky_merge
    rw [if_pos h]
  · unfold sticky_merge
    split <;> rfl
  · intro h1 h2
    unfold sticky_merge
    rw [if_neg h1]
    dsimp only
    rw [if_pos h2, h2]
    exact ⟨rfl, rfl, rfl, rfl⟩

/-- A fresh blocked result for the sticky-merge witness. -/
def wNew : SpecFieldResult :=
  { status := "blocked", value := "", reason := some "anti_bot_challenge",
    provenance := ["freedomhouse:2024"], notes := "" }

/-- A previous ok result for the sticky-merge witness. -/
def wPrev : SpecFieldResult :=
  { status := "ok", value := "Partly Free", reason := none,
    provenance := ["freedomhouse:2023"], notes := "fetched 2023" }

/-- A fresh ok result for the sticky-merge witness. -/
def wOk : SpecFieldResult :=
  { status := "ok", value := "Free", reason := none, provenance := [], notes := "" }

/-- Claim C2, witness: the merge equations at concrete results. -/
theorem sticky_merge_spec_witness :
    sticky_merge wOk (some wPrev) = wOk ∧
    sticky_merge wNew none = wNew ∧
    (sticky_merge wNew (some wPrev)).status = "ok" ∧
    (sticky_merge wNew (some wPrev)).value = "Partly Free" ∧
    (sticky_merge wNew (some wPrev)).provenance = ["freedomhouse:2023"] := by
  have h1 := sticky_merge_spec wOk wPrev (some wPrev)
  have h2 := (sticky_merge_spec wNew wPrev (some wPrev)).2.2 (by decide) rfl
  exact ⟨h1.1 rfl, (sticky_merge_spec wNew wPrev none).2.1, h2.1, h2.2.1, h2.2.2.1⟩

-- ---------------------------- CLAIM C3 ----------------------------

/-- Claim C3, counterexample: for a country with no upcoming election item, a
past election on record (hasPast) and a competitive system label, the resolver
returns status unknown - not the claimed status estimated with an estimated
date; the resolver takes no term-length input and computes no estimate at all. -/
theorem c3_no_estimate_counterexample :
    (get_next_national_election "Q212" [] true "semi-presidential republic").status
      = "unknown" ∧
    (get_next_national_election "Q212" [] true "semi-presidential republic").status
      ≠ "estimated" ∧
    (get_next_national_election "Q212" [] true "semi-presidential republic").reason
      = some "no_upcoming_national_election_item_found_in_wikidata" := by
  decide

/-- Claim C3 (amended): the resolver has no estimate strategy - its status is
always ok (upcoming item found), not_applicable (no past election and a
non-competitive system) or unknown, and is never estimated. -/
theorem election_no_estimate (qid : String) (bindings : List ElecBinding)
    (hasPast : Bool) (label : String) :
    (get_next_national_election qid bindings hasPast label).status =
      (match bindings with
       | _ :: _ => "ok"
       | [] =>
         if !hasPast && (infer_no_national_elections_from_system label == some false)
         then "not_applicable" else "unknown") ∧
    (get_next_national_election qid bindings hasPast label).status ≠ "estimated" := by
  cases bindings with
  | cons b t => exact ⟨rfl, by simp [get_next_national_election]⟩
  | nil =>
    constructor
    · unfold get_next_national_election
      dsimp only
      split_ifs <;> rfl
    · unfold get_next_national_election
      dsimp only
      split_ifs <;> simp

-- ---------------------------- CLAIM C4 ----------------------------

/-- Claim C4, counterexample: with a past-election fixture (hasPast), no upcoming
item and a competitive system, the strategy chain ends in unknown rather than
evaluating the claimed Strategy C estimate; there is also no method field on
the result. -/
theorem c4_strategy_order_counterexample :
    (get_next_national_election "Q30" [] true "federal presidential republic").status
      = "unknown" ∧
    (get_next_national_election "Q30" [] true "federal presidential republic").status
      ≠ "estimated" := by
  decide

/-- Claim C4 (amended): the two existing strategies run in the fixed order A
(upcoming item) then B (non-competitive heuristic with the unknown fallback),
and the first success wins - when an upcoming election item exists the resolver
returns it with status ok and the item's date and name, its result does not
depend on the later strategies' inputs, and it is never an estimate; the code
has no Strategy C and emits no method key. -/
theorem election_first_success (qid : String) (b : ElecBinding) (bs : List ElecBinding)
    (hasPast hasPast2 : Bool) (label label2 : String) :
    (get_next_national_election qid (b :: bs) hasPast label).status = "ok" ∧
    (get_next_national_election qid (b :: bs) hasPast label).date = b.date.getD "" ∧
    (get_next_national_election qid (b :: bs) hasPast label).name = b.eLabel.getD "" ∧
    (get_next_national_election qid (b :: bs) hasPast label).status ≠ "estimated" ∧
    get_next_national_election qid (b :: bs) hasPast label =
      get_next_national_election qid (b :: bs) hasPast2 label2 :=
  ⟨rfl, rfl, rfl, by simp [get_next_national_election], rfl⟩

-- ---------------------------- CLAIM C5 ----------------------------

/-- Claim C5: a country whose political-system label contains one of the
non-competitive keywords and that has neither an upcoming nor a past national
election item resolves its next-election field with status not_applicable,
not unknown. -/
theorem election_not_applicable (qid label : String)
    (h : hardNoSystems.any (fun t => containsSub (pyLower label) t) = true) :
    (get_next_national_election qid [] false label).status = "not_applicable" ∧
    (get_next_national_election qid [] false label).status ≠ "unknown" := by
  have hinf : infer_no_national_elections_from_system label = some false := by
    unfold infer_no_national_elections_from_system
    dsimp only
    rw [if_pos h]
  have hs : (get_next_national_election qid [] false label).status = "not_applicable" := by
    unfold get_next_national_election
    dsimp only
    rw [hinf]
    rfl
  exact ⟨hs, by rw [hs]; decide⟩

/-- Claim C5, witness: the label "Absolute Monarchy" with no upcoming and no
past election resolves to not_applicable. -/
theorem election_not_applicable_witness :
    hardNoSystems.any (fun t => containsSub (pyLower "Absolute Monarchy") t) = true ∧
    (get_next_national_election "Q878" [] false "Absolute Monarchy").status
      = "not_applicable" :=
  ⟨by decide, (election_not_applicable "Q878" "Absolute Monarchy" (by decide)).1⟩

-- ---------------------------- CLAIM C6 ----------------------------

/-- First article for the dedup counterexample. -/
def c6Art1 : RawArticle :=
  { title := some "Berlin flood barriers overwhelmed", url := some "https://example.org/a",
    seendate := some "20250101000000", date := none,
    sourceCommonName := some "Example News", source := none, sourceCountry := none }

/-- Second article for the dedup counterexample: same topic, different headline
text and url. -/
def c6Art2 : RawArticle :=
  { title := some "Berlin flood barriers overwhelmed!", url := some "https://example.org/b",
    seendate := some "20250101010000", date := none,
    sourceCommonName := some "Other News", source := none, sourceCountry := none }

/-- Claim C6, counterexample: the deduplicator keeps two headlines that share a
topic key (formed per the spec by stripping the country alias, punctuation,
case and stopwords and taking the first six tokens), because the code only
deduplicates on the exact pair of lower-cased title and url. -/
theorem c6_topic_dedup_counterexample :
    (gdelt_top_stories 3 [c6Art1, c6Art2]).length = 2 ∧
    ((gdelt_top_stories 3 [c6Art1, c6Art2]).map
        fun s => specTopicKey ["Germany"] 6 s.title) =
      [["berlin", "flood", "barriers", "overwhelmed"],
       ["berlin", "flood", "barriers", "overwhelmed"]] := by
  decide

/-- Claim C6 (amended): gdelt_top_stories returns the first n articles that
survive the filters, deduplicated on the exact (lower-cased title, lower-cased
url) pair - not on a topic key: the output is the n-prefix of the deduplicated
stream, its length is capped by n and by the number of distinct stories (never
padded or duplicated), its keys are pairwise distinct, and it is an
order-preserving selection from the processed article stream. -/
theorem dedup_by_exact_key (n : Nat) (arts : List RawArticle) :
    gdelt_top_stories n arts = (gdelt_recent_articles arts).take n ∧
    (gdelt_top_stories n arts).length = min n (gdelt_recent_articles arts).length ∧
    (gdelt_top_stories n arts).Pairwise (fun s t => storyKey s ≠ storyKey t) ∧
    List.Sublist (gdelt_top_stories n arts) (arts.filterMap articleStory) := by
  refine ⟨rfl, List.length_take _ _, ?_, ?_⟩
  · exact (gdeltLoop_pairwise arts []).sublist (List.take_sublist _ _)
  · exact (List.take_sublist _ _).trans (gdeltLoop_sublist arts [])

-- ---------------------------- CLAIM C7 ----------------------------

/-- Inputs for the confidence counterexample: everything resolves, with an
upcoming election item. -/
def c7InputsA : BuildInputs :=
  { countryName := "Utopia", iso2 := "UT", summary := "A country.", summaryUrl := "u",
    qid := some "Q1",
    polBindings := [{ polsys := none, polsysLabel := some "republic" }],
    hosName := some "Alice", hosParty := some "Red Party", hosUri := none, hosPartyUri := none,
    hogName := some "Bob", hogParty := some "Red Party", hogUri := none, hogPartyUri := none,
    legLabels := [],
    upcoming := [{ e := none, eLabel := some "2026 general election",
                   date := some "2026-05-01", typeLabel := some "general election",
                   datePropLabel := some "P585" }],
    hasPast := true,
    winnerBindings := [{ e := none, eLabel := some "2022 general election",
                         date := some "2022-05-01", winnerLabel := some "Red Party" }],
    prTable := [("Utopia", [(2020, 10)])], clTable := [("Utopia", [(2020, 20)])],
    trendsItemsEmpty := false, trendsIsProxy := false, newsFailed := false, newsArts := [],
    sparklineEmpty := false }

/-- The same inputs with the upcoming election item removed, so the
next-election field fails to unknown. -/
def c7InputsB : BuildInputs := { c7InputsA with upcoming := [] }

/-- Claim C7, counterexample: the next-election field is a field of the record,
yet its failure carries no penalty -2 records identical except that one
resolves the next election (ok) and the other does not (unknown) have the same
confidence, which is not at the 0.0 floor; so a failed field does not always
strictly decrease the confidence. -/
theorem c7_confidence_counterexample :
    (build_country c7InputsA).elections.nextNationalElection.status = "ok" ∧
    (build_country c7InputsB).elections.nextNationalElection.status = "unknown" ∧
    (build_country c7InputsA).quality.confidence
      = (build_country c7InputsB).quality.confidence ∧
    (build_country c7InputsB).quality.confidence ≠ 0 := by
  have hA : (build_country c7InputsA).quality.confidence = confidence (flagsOf c7InputsA) := rfl
  have hB : (build_country c7InputsB).quality.confidence = confidence (flagsOf c7InputsB) := rfl
  have hcents : penaltyCents (flagsOf c7InputsA) = penaltyCents (flagsOf c7InputsB) := by decide
  have hcentsB : penaltyCents (flagsOf c7InputsB) = 5 := by decide
  refine ⟨by decide, by decide, ?_, ?_⟩
  · rw [hA, hB, confidence_eq, confidence_eq, hcents]
  · rw [hB, confidence_eq, hcentsB]
    norm_num

/-- Claim C7 (amended): the confidence starts at 1.0 for a country with no
failed signal, stays within 0.0 and 1.0, and subtracts a fixed positive
penalty for each failed signal of the fixed monitored set (summary, Wikidata
entity, leaders, political system, legislature control, freedom rating,
trends, news, US interest) - failing one more monitored signal strictly
decreases it, the floor never being reached; fields outside that set (the
next-election and executive-party statuses) carry no penalty, as the
counterexample shows. -/
theorem confidence_monotone (f : QualityFlags) (d : Degradation) (h : okAt f d) :
    confidence allOkFlags = 1 ∧
    0 ≤ confidence f ∧ confidence f ≤ 1 ∧
    (∀ inp : BuildInputs,
      (build_country inp).quality.confidence = confidence (flagsOf inp)) ∧
    confidence (degrade f d) < confidence f :=
  ⟨confidence_allOk, confidence_nonneg f, confidence_le_one f,
   fun _ => rfl, confidence_lt f d h⟩

/-- Claim C7, witness: failing the freedom-rating signal on an all-ok country
strictly decreases the confidence. -/
theorem confidence_monotone_witness :
    okAt allOkFlags .freedom ∧
    confidence (degrade allOkFlags .freedom) < confidence allOkFlags :=
  ⟨rfl, (confidence_monotone allOkFlags .freedom rfl).2.2.2.2⟩

-- ---------------------------- CLAIM C8 ----------------------------

/-- Political-rights table for the freedom-rating counterexample. -/
def c8pr : FHTable := [("Freedonia", [(2023, 10), (2024, 20)])]

/-- Civil-liberties table for the freedom-rating counterexample. -/
def c8cl : FHTable := [("Freedonia", [(2023, 5), (2024, 30)])]

/-- Claim C8, counterexample: with data for both 2023 and 2024, the resolver
returns the most recent common year 2024 directly - there is no descending
window starting at most-recent-minus-1 (which would select 2023, a year that
also produces a score and a status), no per-year fetch or challenge detection,
and the qualitative result is a Freedom House classification, never blocked. -/
theorem c8_freedom_window_counterexample :
    (freedom_house_rating "Freedonia" c8pr c8cl).year = some 2024 ∧
    (freedom_house_rating "Freedonia" c8pr c8cl).year ≠ some 2023 ∧
    (freedom_house_rating "Freedonia" c8pr c8cl).status = "Partly Free" ∧
    (freedom_house_rating "Freedonia" c8pr c8cl).status ≠ "blocked" ∧
    (freedom_house_rating "Freedonia" c8pr c8cl).status ≠ "unknown" := by
  have hp : fhPickLoop c8pr c8cl (fhCandidates "Freedonia")
      = some ⟨"Freedonia", 2024, 20, 30⟩ := by decide
  rw [freedom_house_rating_some _ _ _ _ hp]
  have h70 : ¬ ((70:ℚ) ≤ 20 + 30) := by norm_num
  have h35 : ((35:ℚ) ≤ 20 + 30) := by norm_num
  dsimp only
  rw [if_neg h70, if_pos h35]
  exact ⟨rfl, by decide, rfl, by decide, by decide⟩

/-- Claim C8 (amended): the freedom-rating resolver reads the OWID tables and
tries candidate entity names in order; if no candidate has a common year in
both tables the result is unknown with an empty score, otherwise the first
viable candidate's most recent common year is used, the score is the rounded
PR+CL total and the status is the threshold classification - and the status is
never blocked (the code has no year window and no challenge detection). -/
theorem freedom_rating_characterization (name : String) (prT clT : FHTable) :
    (freedom_house_rating name prT clT).status ≠ "blocked" ∧
    (fhPickLoop prT clT (fhCandidates name) = none →
      (freedom_house_rating name prT clT).status = "unknown" ∧
      (freedom_house_rating name prT clT).score = none) ∧
    (∀ p, fhPickLoop prT clT (fhCandidates name) = some p →
      (freedom_house_rating name prT clT).year = some p.year ∧
      (freedom_house_rating name prT clT).score = some (pyRound (p.pr + p.cl) 1) ∧
      (freedom_house_rating name prT clT).status =
        (if 70 ≤ p.pr + p.cl then "Free"
         else if 35 ≤ p.pr + p.cl then "Partly Free" else "Not Free") ∧
      ∀ y ∈ commonYearsSorted (lookupTable prT p.entity) (lookupTable clT p.entity),
        y ≤ p.year) := by
  refine ⟨?_, ?_, ?_⟩
  · cases h : fhPickLoop prT clT (fhCandidates name) with
    | none => rw [freedom_house_rating_none _ _ _ h]; simp
    | some p =>
      rw [freedom_house_rating_some _ _ _ _ h]
      dsimp only
      split_ifs <;> simp
  · intro h
    rw [freedom_house_rating_none _ _ _ h]
    exact ⟨rfl, rfl⟩
  · intro p hp
    rw [freedom_house_rating_some _ _ _ _ hp]
    exact ⟨rfl, rfl, rfl, (fhPickLoop_year prT clT _ p hp).2⟩

/-- Claim C8, witness: the characterization applied to the two-year tables -
never blocked, year 2024 selected, and 2023 bounded by the selected year. -/
theorem freedom_rating_characterization_witness :
    (freedom_house_rating "Freedonia" c8pr c8cl).status ≠ "blocked" ∧
    (freedom_house_rating "Freedonia" c8pr c8cl).year = some 2024 ∧
    ((2023 : Int) ≤ 2024) := by
  have h := freedom_rating_characterization "Freedonia" c8pr c8cl
  have hp : fhPickLoop c8pr c8cl (fhCandidates "Freedonia")
      = some ⟨"Freedonia", 2024, 20, 30⟩ := by decide
  have h2 := h.2.2 ⟨"Freedonia", 2024, 20, 30⟩ hp
  exact ⟨h.1, h2.1, h2.2.2.2 2023 (by decide)⟩

-- ---------------------------- CLAIM C9 ----------------------------

/-- Claim C9: the executive controlling-party field has exactly three possible
outcomes - the head of government's party with status ok when that party is
present; otherwise the head of state's party with status computed and a reason
recording the fallback; otherwise status unknown with an empty value and a
reason - and no other outcome is possible. -/
theorem exec_controller_trichotomy (qid : String) (hogParty hosParty : Option String) :
    (pyTruthy hogParty = true ∧
      execControllerParty qid hogParty hosParty =
        { status := "ok", value := hogParty.getD "", reason := none,
          sources := [WIKIDATA_ENTITY_BASE ++ qid] })
    ∨ (pyTruthy hogParty = false ∧ pyTruthy hosParty = true ∧
      execControllerParty qid hogParty hosParty =
        { status := "computed", value := hosParty.getD "",
          reason := some "head_of_government_party_missing_used_head_of_state_party",
          sources := [WIKIDATA_ENTITY_BASE ++ qid] })
    ∨ (pyTruthy hogParty = false ∧ pyTruthy hosParty = false ∧
      execControllerParty qid hogParty hosParty =
        { status := "unknown", value := "",
          reason := some "no_party_membership_found_for_leaders",
          sources := [WIKIDATA_ENTITY_BASE ++ qid] }) := by
  cases h1 : pyTruthy hogParty with
  | true => exact Or.inl ⟨rfl, by simp [execControllerParty, h1]⟩
  | false =>
    cases h2 : pyTruthy hosParty with
    | true => exact Or.inr (Or.inl ⟨rfl, rfl, by simp [execControllerParty, h1, h2]⟩)
    | false => exact Or.inr (Or.inr ⟨rfl, rfl, by simp [execControllerParty, h1, h2]⟩)

-- ---------------------------- CLAIM C10 ----------------------------

/-- Claim C10: the partyControl list of every record starts with the Executive
entry, its tail is one entry per legislature body - with the single placeholder
body "Legislature" carrying the legislature-control result when no bodies were
found - and the list always holds at least two entries. -/
theorem party_control_shape (inp : BuildInputs) :
    ((build_country inp).government.partyControl).head? =
      some (execEntry (govOf inp).executiveControllerParty) ∧
    ((build_country inp).government.partyControl).tail =
      ((if (govOf inp).legislatureBodies = [] then ["Legislature"]
        else (govOf inp).legislatureBodies).map (legEntry (legControlOf inp))) ∧
    2 ≤ ((build_country inp).government.partyControl).length := by
  refine ⟨rfl, rfl, ?_⟩
  show 2 ≤ (party_control (govOf inp).executiveControllerParty (legControlOf inp)
    (govOf inp).legislatureBodies).length
  unfold party_control
  rw [List.length_cons, List.length_map]
  cases h : (govOf inp).legislatureBodies with
  | nil => simp
  | cons b t => simp
